import Mathlib

/-!
Shallow embedding of the conformance test client of `src/mcp_forge/tester.py`
(the `TestResult` / `TestReport` data model, the `MCPTestClient.stop` process
shutdown, and the probe sequence of `run_test_suite`), together with theorems
checking the specification of that module.

Responses decoded from the wire are arbitrary JSON values, so the embedding
models the Python dictionary/list/string operations the probes apply to them
(`in`, `[...]`, `.get`, `len`, truthiness) with their Python semantics,
including the exceptions they raise on values of the wrong shape; exceptions
are `Except.error` carrying the exception message.
-/

/-- A JSON value, as produced by `json.loads` on a response line. -/
inductive Json where
  | null : Json
  | bool : Bool → Json
  | num : Int → Json
  | str : String → Json
  | arr : List Json → Json
  | obj : List (String × Json) → Json

/-- Key lookup in a JSON object (Python dictionary lookup). -/
def lookupKey (m : List (String × Json)) (k : String) : Option Json :=
  match m.find? (fun p => p.1 == k) with
  | some p => some p.2
  | none => none

/-- Whether a JSON value is a list (`isinstance(x, list)`). -/
def Json.isArr : Json → Bool
  | .arr _ => true
  | _ => false

/-- Python substring test: `pat in s` for strings. -/
def pySubstr (s pat : String) : Bool :=
  pat.isEmpty || (s.splitOn pat).length != 1

/-- Python truthiness of a JSON value (`if x:`). -/
def pyTruthy : Json → Bool
  | .null => false
  | .bool b => b
  | .num n => n != 0
  | .str s => !s.isEmpty
  | .arr xs => !xs.isEmpty
  | .obj m => !m.isEmpty

/-- Python `k in j`: key test on dictionaries, membership on lists,
substring on strings; raises `TypeError` on other values. -/
def pyContains (j : Json) (k : String) : Except String Bool :=
  match j with
  | .obj m => .ok (lookupKey m k).isSome
  | .arr xs => .ok (xs.any fun e => match e with | .str s => s == k | _ => false)
  | .str s => .ok (pySubstr s k)
  | _ => .error "TypeError: argument is not iterable"

/-- Python `j[k]` for a string key: dictionary lookup raising `KeyError`
when missing; `TypeError` on lists, strings and scalars. -/
def pyGetItem (j : Json) (k : String) : Except String Json :=
  match j with
  | .obj m =>
    match lookupKey m k with
    | some v => .ok v
    | none => .error ("\x27" ++ k ++ "\x27")
  | .arr _ => .error "TypeError: list indices must be integers or slices, not str"
  | .str _ => .error "TypeError: string indices must be integers"
  | _ => .error "TypeError: object is not subscriptable"

/-- Python `j[i]` for an integer index (lists and strings). -/
def pyIndex (j : Json) (i : Nat) : Except String Json :=
  match j with
  | .arr xs =>
    match xs.get? i with
    | some v => .ok v
    | none => .error "IndexError: list index out of range"
  | .str s =>
    match s.toList.get? i with
    | some c => .ok (.str (String.mk [c]))
    | none => .error "IndexError: string index out of range"
  | .obj _ => .error (toString i)
  | _ => .error "TypeError: object is not subscriptable"

/-- Python `j.get(k, d)`: only dictionaries have `.get`; other values
raise `AttributeError`. -/
def pyGet (j : Json) (k : String) (d : Json) : Except String Json :=
  match j with
  | .obj m => .ok ((lookupKey m k).getD d)
  | _ => .error "AttributeError: object has no attribute get"

/-- Python `len(j)`: length of lists, strings and dictionaries; raises
`TypeError` on other values. -/
def pyLen (j : Json) : Except String Nat :=
  match j with
  | .arr xs => .ok xs.length
  | .str s => .ok s.length
  | .obj m => .ok m.length
  | _ => .error "TypeError: object has no len"

mutual
/-- Python `repr` of a JSON value (used inside containers by `str`). -/
def pyRepr : Json → String
  | .null => "None"
  | .bool true => "True"
  | .bool false => "False"
  | .num n => toString n
  | .str s => "\x27" ++ s ++ "\x27"
  | .arr xs => "[" ++ pyReprList xs ++ "]"
  | .obj m => "\x7b" ++ pyReprMembers m ++ "\x7d"

/-- Comma-separated `repr`s of list elements. -/
def pyReprList : List Json → String
  | [] => ""
  | [x] => pyRepr x
  | x :: xs => pyRepr x ++ ", " ++ pyReprList xs

/-- Comma-separated `repr`s of dictionary entries. -/
def pyReprMembers : List (String × Json) → String
  | [] => ""
  | [(k, v)] => "\x27" ++ k ++ "\x27: " ++ pyRepr v
  | (k, v) :: m => "\x27" ++ k ++ "\x27: " ++ pyRepr v ++ ", " ++ pyReprMembers m
end

/-- Python `str` of a JSON value, as interpolated by an f-string. -/
def pyStr : Json → String
  | .str s => s
  | j => pyRepr j

/-- Python `str` of a boolean, as interpolated by an f-string. -/
def pyBoolStr (b : Bool) : String := if b then "True" else "False"

/-- The failure message of the `initialize` probe, built from the presence
flags of the three required keys
(`f"Missing fields: version=... info=... caps=..."`). -/
def missingFieldsMsg (hv hi hc : Bool) : String :=
  "Missing fields: version=" ++ pyBoolStr hv ++ " info=" ++ pyBoolStr hi
    ++ " caps=" ++ pyBoolStr hc

/-- `TestResult` of `tester.py`: result of a single test case. -/
structure TestResult where
  name : String
  passed : Bool
  message : String := ""
  response : Option Json := none

/-- `TestReport` of `tester.py`: the ordered list of results. -/
structure TestReport where
  results : List TestResult := []

/-- `TestReport.passed`: `sum(1 for r in self.results if r.passed)`,
recomputed from the result list on each use. -/
def TestReport.passed (rep : TestReport) : Nat :=
  rep.results.countP (fun r => r.passed)

/-- `TestReport.failed`: `sum(1 for r in self.results if not r.passed)`,
recomputed from the result list on each use. -/
def TestReport.failed (rep : TestReport) : Nat :=
  rep.results.countP (fun r => !r.passed)

/-- `TestReport.total`: `len(self.results)`. -/
def TestReport.total (rep : TestReport) : Nat :=
  rep.results.length

/-- A JSON-RPC request as framed by `send_request`: ids are assigned by the
monotone counter starting at 1, and the `params` member is attached only when
the argument is present and truthy (`if params:`). -/
structure Request where
  id : Nat
  method : String
  params : Option Json

/-- Build the request for `send_request(method, params)`. -/
def mkRequest (id : Nat) (method : String) (params : Option Json) : Request :=
  ⟨id, method,
    match params with
    | some p => if pyTruthy p then some p else none
    | none => none⟩

/-- The child process as seen by `stop()`: the time (in the units of
`Popen.wait`) after termination is requested at which it exits, or `none`
if it never exits. -/
structure Proc where
  exitTime : Option Nat

/-- The `_process` field of `MCPTestClient`. -/
structure ClientState where
  process : Option Proc

/-- The `timeout=5` of `self._process.wait(timeout=5)`. -/
def stopTimeout : Nat := 5

namespace MCPTestClient

/-- `MCPTestClient.stop`: if a process is recorded, terminate it and
`wait(timeout=5)`; `wait` returns once the process exits within the timeout
(and `_process` is cleared), and raises `TimeoutExpired` otherwise (leaving
`_process` set).  The second component is the time spent waiting.  With no
recorded process the call does nothing. -/
def stop (s : ClientState) : Except String ClientState × Nat :=
  match s.process with
  | none => (.ok s, 0)
  | some p =>
    match p.exitTime with
    | some t =>
      if t ≤ stopTimeout then (.ok ⟨none⟩, t)
      else (.error "TimeoutExpired", stopTimeout)
    | none => (.error "TimeoutExpired", stopTimeout)

end MCPTestClient

/-- Behaviour of one run against a peer: whether `client.start()` raises
(and with which message), the outcome of the `i`-th `send_request` call
(`.error` for a raised transport/parsing failure — closed stdin, empty read,
`json.loads` failure — and `.ok` for a decoded JSON reply), and how the child
process reacts to `stop()` at the end of the run. -/
structure Behavior where
  startExc : Option String
  respond : Nat → Except String Json
  stopProc : Proc

/-- Outcome of one probe body: the fields of the recorded `TestResult`
other than the constant probe name. -/
structure ProbeOut where
  passed : Bool
  message : String
  response : Option Json

/-- The `except Exception as exc:` boundary of a probe: a raised failure
becomes a failing outcome carrying the exception message and no response. -/
def runCatch (body : Except String ProbeOut) : ProbeOut :=
  match body with
  | .ok o => o
  | .error msg => ⟨false, msg, none⟩

/-- Attach the constant probe name to a probe outcome. -/
def toResult (nm : String) (o : ProbeOut) : TestResult :=
  ⟨nm, o.passed, o.message, o.response⟩

/-- The fixed `initialize` request parameters sent by the suite. -/
def initParams : Json :=
  .obj [("protocolVersion", .str "2024-11-05"),
        ("capabilities", .obj []),
        ("clientInfo", .obj [("name", .str "mcp-forge-tester"),
                             ("version", .str "0.1.0")])]

/-- The `initialize` probe body (`tester.py` lines 134–152), reading the
reply of request slot `n`. -/
def initOut (b : Behavior) (n : Nat) : ProbeOut :=
  runCatch do
    let resp ← b.respond n
    let hasResult ← pyContains resp "result"
    if hasResult then
      let result ← pyGetItem resp "result"
      let hv ← pyContains result "protocolVersion"
      let hi ← pyContains result "serverInfo"
      let hc ← pyContains result "capabilities"
      let ok := hv && hi && hc
      let msg := if ok then "initialize response valid"
        else missingFieldsMsg hv hi hc
      pure ⟨ok, msg, some resp⟩
    else
      let e ← pyGet resp "error" Json.null
      pure ⟨false, "Error: " ++ pyStr e, some resp⟩

/-- The `tools/list` probe body (`tester.py` lines 154–164). -/
def toolsListOut (b : Behavior) (n : Nat) : ProbeOut :=
  runCatch do
    let resp ← b.respond n
    let hasResult ← pyContains resp "result"
    if hasResult then
      let result ← pyGetItem resp "result"
      let tools ← pyGet result "tools" (Json.arr [])
      let ok := tools.isArr
      let len ← pyLen tools
      pure ⟨ok, "Found " ++ toString len ++ " tools", some resp⟩
    else
      let e ← pyGet resp "error" Json.null
      pure ⟨false, "Error: " ++ pyStr e, some resp⟩

/-- The parameters of the `tools/call` request for a given tool name. -/
def toolsCallParams (toolName : Json) : Json :=
  .obj [("name", toolName), ("arguments", .obj [("query", .str "test")])]

/-- The `tools/call` probe (`tester.py` lines 166–185): re-fetch the tool
list at slot `n`; when the fetched `tools` value is truthy, call the first
tool at slot `n + 1` and judge the reply; otherwise record a passing
"skipped" result.  Returns the outcome, the next free request slot, and the
requests sent. -/
def toolsCallStep (b : Behavior) (n : Nat) : ProbeOut × Nat × List Request :=
  let req1 := mkRequest (n + 1) "tools/list" none
  match (do
      let resp ← b.respond n
      let r ← pyGet resp "result" (Json.obj [])
      pyGet r "tools" (Json.arr []) : Except String Json) with
  | .error msg => (⟨false, msg, none⟩, n + 1, [req1])
  | .ok tools =>
    if pyTruthy tools then
      match (do
          let t0 ← pyIndex tools 0
          pyGetItem t0 "name" : Except String Json) with
      | .error msg => (⟨false, msg, none⟩, n + 1, [req1])
      | .ok toolName =>
        let req2 := mkRequest (n + 2) "tools/call" (some (toolsCallParams toolName))
        let out := runCatch do
          let resp2 ← b.respond (n + 1)
          let hasResult ← pyContains resp2 "result"
          if hasResult then
            let result ← pyGetItem resp2 "result"
            let content ← pyGet result "content" (Json.arr [])
            let len ← pyLen content
            pure ⟨decide (0 < len),
              "Called \x27" ++ pyStr toolName ++ "\x27 successfully", some resp2⟩
          else
            let e ← pyGet resp2 "error" Json.null
            pure ⟨false, "Error: " ++ pyStr e, some resp2⟩
        (out, n + 2, [req1, req2])
    else
      (⟨true, "No tools to test (skipped)", none⟩, n + 1, [req1])

/-- The `ping` probe body (`tester.py` lines 187–193). -/
def pingOut (b : Behavior) (n : Nat) : ProbeOut :=
  runCatch do
    let resp ← b.respond n
    let ok ← pyContains resp "result"
    if ok then
      pure ⟨true, "Ping OK", some resp⟩
    else
      let e ← pyGet resp "error" Json.null
      pure ⟨false, "Error: " ++ pyStr e, some resp⟩

/-- The `unknown_method` probe body (`tester.py` lines 195–201). -/
def unknownOut (b : Behavior) (n : Nat) : ProbeOut :=
  runCatch do
    let resp ← b.respond n
    let ok ← pyContains resp "error"
    pure ⟨ok,
      if ok then "Correctly returned error for unknown method"
      else "Should have returned error", some resp⟩

/-- `run_test_suite` (`tester.py` lines 113–206), instrumented with the next
free request slot and the requests sent.  A `start()` failure is caught and
returns the one-result report; each request probe runs behind its own catch
boundary; the final `client.stop()` is not inside any `try`, so a failure
raised there propagates out of the function (`.error`). -/
def runSuiteAux (b : Behavior) : Except String TestReport × Nat × List Request :=
  match b.startExc with
  | some msg => (.ok ⟨[⟨"server_start", false, msg, none⟩]⟩, 0, [])
  | none =>
    let r1 := toResult "initialize" (initOut b 0)
    let r2 := toResult "tools/list" (toolsListOut b 1)
    let s3 := toolsCallStep b 2
    let r3 := toResult "tools/call" s3.1
    let n4 := s3.2.1
    let r4 := toResult "ping" (pingOut b n4)
    let r5 := toResult "unknown_method" (unknownOut b (n4 + 1))
    let reqs := [mkRequest 1 "initialize" (some initParams),
                 mkRequest 2 "tools/list" none]
      ++ s3.2.2 ++ [mkRequest (n4 + 1) "ping" none,
                    mkRequest (n4 + 2) "nonexistent/method" none]
    match (MCPTestClient.stop ⟨some b.stopProc⟩).1 with
    | .error msg => (.error msg, n4 + 2, reqs)
    | .ok _ =>
      (.ok ⟨[⟨"server_start", true, "Server started successfully", none⟩,
             r1, r2, r3, r4, r5,
             ⟨"server_stop", true, "Server stopped cleanly", none⟩]⟩,
       n4 + 2, reqs)

/-- `run_test_suite`, returning the report (or the propagated failure). -/
def run_test_suite (b : Behavior) : Except String TestReport :=
  (runSuiteAux b).1

@[simp] theorem exceptBind_ok {α β : Type} (a : α) (f : α → Except String β) :
    (Except.ok a : Except String α) >>= f = f a := rfl

@[simp] theorem exceptBind_error {α β : Type} (e : String) (f : α → Except String β) :
    (Except.error e : Except String α) >>= f = .error e := rfl

@[simp] theorem exceptPure_eq_ok {α : Type} (a : α) :
    (pure a : Except String α) = .ok a := rfl

@[simp] theorem pyContains_obj (m : List (String × Json)) (k : String) :
    pyContains (Json.obj m) k = .ok (lookupKey m k).isSome := rfl

@[simp] theorem pyGet_obj (m : List (String × Json)) (k : String) (d : Json) :
    pyGet (Json.obj m) k d = .ok ((lookupKey m k).getD d) := rfl

theorem pyGetItem_obj_some (m : List (String × Json)) (k : String) (v : Json)
    (h : lookupKey m k = some v) : pyGetItem (Json.obj m) k = .ok v := by
  simp [pyGetItem, h]

@[simp] theorem runCatch_ok (o : ProbeOut) : runCatch (.ok o) = o := rfl

@[simp] theorem runCatch_error (msg : String) :
    runCatch (.error msg) = ⟨false, msg, none⟩ := rfl

/-- C9: for every report, `total` equals `passed` plus `failed`; the three
counts are functions of the ordered result list alone. -/
theorem report_total_eq_passed_add_failed (rep : TestReport) :
    rep.total = rep.passed + rep.failed := by
  unfold TestReport.total TestReport.passed TestReport.failed
  induction rep.results with
  | nil => rfl
  | cons r rs ih =>
    cases h : r.passed <;> simp [List.countP_cons, h, ih] <;> omega

/-- C9 witness: the identity evaluated on a concrete two-result report. -/
theorem report_total_witness :
    (TestReport.mk [⟨"a", true, "", none⟩, ⟨"b", false, "", none⟩]).total =
      (TestReport.mk [⟨"a", true, "", none⟩, ⟨"b", false, "", none⟩]).passed +
      (TestReport.mk [⟨"a", true, "", none⟩, ⟨"b", false, "", none⟩]).failed :=
  report_total_eq_passed_add_failed _

/-- C4 counterexample: on a process that never exits, `stop()` raises
`TimeoutExpired` after waiting the full timeout, instead of accepting the
still-running process without an error. -/
theorem stop_raises_when_process_never_exits :
    MCPTestClient.stop ⟨some ⟨none⟩⟩ = (.error "TimeoutExpired", stopTimeout) := rfl

/-- C4 (amended): `stop()` waits at most the bounded timeout of 5 time units
and is a no-op when the process is already stopped; but when the process is
still running after the timeout, `stop()` raises `TimeoutExpired` rather
than treating it as acceptable. -/
theorem stop_bounded_idempotent_timeout_raises (s : ClientState) :
    (MCPTestClient.stop s).2 ≤ stopTimeout ∧
    (s.process = none → MCPTestClient.stop s = (.ok s, 0)) ∧
    (∀ p, s.process = some p →
      (p.exitTime = none ∨ ∃ t, p.exitTime = some t ∧ stopTimeout < t) →
      MCPTestClient.stop s = (.error "TimeoutExpired", stopTimeout)) := by
  unfold MCPTestClient.stop
  obtain ⟨pr⟩ := s
  cases pr with
  | none => simp
  | some p =>
    cases hp : p.exitTime with
    | none => simp [hp]
    | some t =>
      by_cases ht : t ≤ stopTimeout <;> simp [hp, ht]

/-- C4 witness: the amended statement applied to a stopped client and to a
process that exits after 10 units. -/
theorem stop_amended_witness :
    MCPTestClient.stop ⟨none⟩ = (.ok ⟨none⟩, 0) ∧
    MCPTestClient.stop ⟨some ⟨some 10⟩⟩ = (.error "TimeoutExpired", stopTimeout) :=
  ⟨(stop_bounded_idempotent_timeout_raises ⟨none⟩).2.1 rfl,
   (stop_bounded_idempotent_timeout_raises ⟨some ⟨some 10⟩⟩).2.2 ⟨some 10⟩ rfl
     (Or.inr ⟨10, rfl, by decide⟩)⟩

/-- C8: when `client.start()` raises, the suite returns a report holding
exactly one failing `server_start` result carrying the exception message,
sends no request, and runs no other probe. -/
theorem start_failure_single_result_no_requests (b : Behavior) (msg : String)
    (h : b.startExc = some msg) :
    runSuiteAux b = (.ok ⟨[⟨"server_start", false, msg, none⟩]⟩, 0, []) := by
  unfold runSuiteAux
  rw [h]

/-- Peer whose launch fails with message "spawn failed". -/
def failStartB : Behavior := ⟨some "spawn failed", fun _ => .ok .null, ⟨some 0⟩⟩

/-- C8 witness: the start-failure theorem applied to `failStartB`. -/
theorem start_failure_witness :
    runSuiteAux failStartB =
      (.ok ⟨[⟨"server_start", false, "spawn failed", none⟩]⟩, 0, []) :=
  start_failure_single_result_no_requests failStartB "spawn failed" rfl

/-- C2: with an object response whose `result` member (when present) is an
object — the response shape of the spec's data model — the `initialize`
probe passes iff the response has a `result` containing all of
`protocolVersion`, `serverInfo` and `capabilities`; when any is absent it
fails with the missing-fields message whose flags are false exactly for the
missing keys, and that message determines the set of missing keys. -/
theorem initProbe_pass_iff_required_keys (b : Behavior) (n : Nat)
    (m : List (String × Json))
    (hresp : b.respond n = .ok (Json.obj m))
    (hobj : ∀ v, lookupKey m "result" = some v → ∃ mr, v = Json.obj mr) :
    ((initOut b n).passed = true ↔
      ∃ mr, lookupKey m "result" = some (Json.obj mr) ∧
        (lookupKey mr "protocolVersion").isSome = true ∧
        (lookupKey mr "serverInfo").isSome = true ∧
        (lookupKey mr "capabilities").isSome = true) ∧
    (∀ mr, lookupKey m "result" = some (Json.obj mr) →
      ((lookupKey mr "protocolVersion").isSome && (lookupKey mr "serverInfo").isSome
          && (lookupKey mr "capabilities").isSome) = false →
      (initOut b n).passed = false ∧
      (initOut b n).message =
        missingFieldsMsg (lookupKey mr "protocolVersion").isSome
          (lookupKey mr "serverInfo").isSome (lookupKey mr "capabilities").isSome) ∧
    (∀ a1 a2 a3 c1 c2 c3 : Bool,
      missingFieldsMsg a1 a2 a3 = missingFieldsMsg c1 c2 c3 →
      a1 = c1 ∧ a2 = c2 ∧ a3 = c3) := by
  refine ⟨?_, ?_, by decide⟩
  · unfold initOut
    rw [hresp]
    cases h : lookupKey m "result" with
    | none => simp [h, pyContains, pyGet, runCatch]
    | some v =>
      obtain ⟨mr, rfl⟩ := hobj v h
      simp [h, pyContains, pyGetItem, runCatch, and_assoc]
  · intro mr hmr hflags
    unfold initOut
    rw [hresp]
    simp only [exceptBind_ok, pyContains_obj]
    rw [hmr]
    simp only [Option.isSome_some, if_true, exceptBind_ok]
    rw [pyGetItem_obj_some m "result" (Json.obj mr) hmr]
    simp [hflags]
    intro h1 h2 h3
    simp [h1, h2, h3] at hflags

/-- Peer answering every request with `{"result": {}}` and never an error. -/
def resultOnlyB : Behavior :=
  ⟨none, fun _ => .ok (.obj [("result", .obj [])]), ⟨some 0⟩⟩

/-- Peer answering every request with a response missing `serverInfo`. -/
def missInfoB : Behavior :=
  ⟨none,
   fun _ => .ok (.obj [("result",
     .obj [("protocolVersion", .str "2024-11-05"), ("capabilities", .obj [])])]),
   ⟨some 0⟩⟩

/-- C2 witness: on a reply whose `result` lacks `serverInfo`, the probe
fails and its message flags exactly the missing key. -/
theorem initProbe_witness :
    (initOut missInfoB 0).passed = false ∧
    (initOut missInfoB 0).message = missingFieldsMsg true false true := by
  have h := initProbe_pass_iff_required_keys missInfoB 0
    [("result", Json.obj [("protocolVersion", Json.str "2024-11-05"),
                          ("capabilities", Json.obj [])])]
    rfl
    (by
      intro v hv
      rw [show lookupKey [("result", Json.obj [("protocolVersion", Json.str "2024-11-05"),
            ("capabilities", Json.obj [])])] "result"
          = some (Json.obj [("protocolVersion", Json.str "2024-11-05"),
            ("capabilities", Json.obj [])]) from rfl] at hv
      exact ⟨_, (Option.some.inj hv).symm⟩)
  have h2 := h.2.1 [("protocolVersion", Json.str "2024-11-05"),
                    ("capabilities", Json.obj [])] rfl rfl
  exact ⟨h2.1, h2.2.trans rfl⟩

/-- C7: with an object response — the response shape of the spec's data
model — the `unknown_method` probe passes exactly when the response has an
`error` member. -/
theorem unknownProbe_pass_iff_error_field (b : Behavior) (n : Nat)
    (m : List (String × Json)) (hresp : b.respond n = .ok (Json.obj m)) :
    (unknownOut b n).passed = (lookupKey m "error").isSome := by
  unfold unknownOut
  rw [hresp]
  cases h : (lookupKey m "error").isSome <;> simp [h]

/-- C7 witness: a peer answering the invalid method with `{"result": {}}`
and no error makes the probe fail. -/
theorem unknownProbe_witness : (unknownOut resultOnlyB 0).passed = false :=
  (unknownProbe_pass_iff_error_field resultOnlyB 0 [("result", Json.obj [])] rfl).trans rfl

/-- C6: when a `tools/list` reply carries `result.tools = []`, the
`tools/list` probe passes with "Found 0 tools", and the `tools/call` probe,
whose own re-fetch also yields an empty list, records a passing "skipped"
result after sending only the re-fetch request (no `tools/call` request). -/
theorem emptyTools_list_passes_call_skipped (b : Behavior) (n n2 : Nat)
    (m mr m2 mr2 : List (String × Json))
    (h1 : b.respond n = .ok (Json.obj m))
    (hr1 : lookupKey m "result" = some (Json.obj mr))
    (ht1 : lookupKey mr "tools" = some (Json.arr []))
    (h2 : b.respond n2 = .ok (Json.obj m2))
    (hr2 : lookupKey m2 "result" = some (Json.obj mr2))
    (ht2 : lookupKey mr2 "tools" = some (Json.arr [])) :
    toResult "tools/list" (toolsListOut b n) =
      ⟨"tools/list", true, "Found 0 tools", some (Json.obj m)⟩ ∧
    toolsCallStep b n2 =
      (⟨true, "No tools to test (skipped)", none⟩, n2 + 1,
       [mkRequest (n2 + 1) "tools/list" none]) := by
  constructor
  · unfold toolsListOut
    rw [h1]
    simp only [exceptBind_ok, pyContains_obj]
    rw [hr1]
    simp only [Option.isSome_some, if_true, exceptBind_ok]
    rw [pyGetItem_obj_some m "result" (Json.obj mr) hr1]
    simp [ht1, toResult, Json.isArr, pyLen]
    rfl
  · unfold toolsCallStep
    rw [h2]
    simp only [exceptBind_ok, pyGet_obj]
    rw [hr2]
    simp [ht2, pyTruthy]

/-- C10: when the re-fetch of the tool list yields an object response with
no `result` member, or a `result` object with no `tools` member, the
`tools/call` probe records the passing "skipped" result and sends no
`tools/call` request. -/
theorem toolsCall_skips_without_result_or_tools (b : Behavior) (n : Nat)
    (m : List (String × Json)) (h : b.respond n = .ok (Json.obj m))
    (hcase : lookupKey m "result" = none ∨
      ∃ mr, lookupKey m "result" = some (Json.obj mr) ∧ lookupKey mr "tools" = none) :
    toolsCallStep b n =
      (⟨true, "No tools to test (skipped)", none⟩, n + 1,
       [mkRequest (n + 1) "tools/list" none]) := by
  unfold toolsCallStep
  rw [h]
  simp only [exceptBind_ok, pyGet_obj]
  rcases hcase with hnone | ⟨mr, hr, ht⟩
  · rw [hnone]
    simp [lookupKey, pyTruthy]
  · rw [hr]
    simp [ht, pyTruthy]

/-- A `tools/list` reply with `result.tools = []`. -/
def emptyToolsResp : Json := .obj [("result", .obj [("tools", .arr [])])]

/-- Peer answering every request with `emptyToolsResp`. -/
def emptyToolsB : Behavior := ⟨none, fun _ => .ok emptyToolsResp, ⟨some 0⟩⟩

/-- C6 witness: the empty-tool-list theorem applied to `emptyToolsB` at the
suite's slots 1 and 2. -/
theorem emptyTools_witness :
    toResult "tools/list" (toolsListOut emptyToolsB 1) =
      ⟨"tools/list", true, "Found 0 tools", some emptyToolsResp⟩ ∧
    toolsCallStep emptyToolsB 2 =
      (⟨true, "No tools to test (skipped)", none⟩, 3,
       [mkRequest 3 "tools/list" none]) :=
  emptyTools_list_passes_call_skipped emptyToolsB 1 2 _ _ _ _ rfl rfl rfl rfl rfl rfl

/-- Peer answering every request with `{"error": {}}` (no `result`). -/
def errOnlyB : Behavior := ⟨none, fun _ => .ok (.obj [("error", .obj [])]), ⟨some 0⟩⟩

/-- C10 witness: the skip theorem applied to a peer whose re-fetched list
reply has no `result` member. -/
theorem toolsCall_skip_witness :
    toolsCallStep errOnlyB 2 =
      (⟨true, "No tools to test (skipped)", none⟩, 3,
       [mkRequest 3 "tools/list" none]) :=
  toolsCall_skips_without_result_or_tools errOnlyB 2 [("error", Json.obj [])] rfl
    (Or.inl rfl)

/-- C5 (amended): when the re-fetched tool list is non-empty (its first
entry an object with a `name`), the probe sends a `tools/call` request for
that name with arguments `{"query": "test"}`; with an object reply whose
`result` member (when present) is an object, it passes iff the reply has a
`result` whose `content` value (an empty list when absent) has positive
Python length — so a non-empty `content` list passes, but so does any other
non-empty sized value such as a non-empty string. -/
theorem toolsCall_pass_iff_sized_content (b : Behavior) (n : Nat)
    (m mr t0m m2 : List (String × Json)) (rest : List Json) (nm : Json)
    (h1 : b.respond n = .ok (Json.obj m))
    (hr : lookupKey m "result" = some (Json.obj mr))
    (ht : lookupKey mr "tools" = some (Json.arr (Json.obj t0m :: rest)))
    (hnm : lookupKey t0m "name" = some nm)
    (h2 : b.respond (n + 1) = .ok (Json.obj m2))
    (hobj2 : ∀ v, lookupKey m2 "result" = some v → ∃ m2r, v = Json.obj m2r) :
    (toolsCallStep b n).2.2 =
      [mkRequest (n + 1) "tools/list" none,
       mkRequest (n + 2) "tools/call" (some (toolsCallParams nm))] ∧
    (toolsCallStep b n).2.1 = n + 2 ∧
    ((toolsCallStep b n).1.passed = true ↔
      ∃ m2r l, lookupKey m2 "result" = some (Json.obj m2r) ∧
        pyLen ((lookupKey m2r "content").getD (Json.arr [])) = .ok l ∧ 0 < l) := by
  unfold toolsCallStep
  rw [h1]
  simp only [exceptBind_ok, pyGet_obj]
  rw [hr]
  simp only [Option.getD_some, pyGet_obj]
  rw [ht]
  simp only [Option.getD_some, pyTruthy, List.isEmpty_cons, Bool.not_false, if_true]
  simp only [pyIndex, List.get?_cons_zero, exceptBind_ok]
  rw [pyGetItem_obj_some t0m "name" nm hnm]
  refine ⟨rfl, rfl, ?_⟩
  rw [h2]
  simp only [exceptBind_ok, pyContains_obj]
  cases hres : lookupKey m2 "result" with
  | none => simp [hres, pyGet, runCatch]
  | some v =>
    obtain ⟨m2r, rfl⟩ := hobj2 v hres
    simp only [Option.isSome_some, if_true, exceptBind_ok]
    rw [pyGetItem_obj_some m2 "result" (Json.obj m2r) hres]
    simp only [exceptBind_ok, pyGet_obj]
    cases hc : (lookupKey m2r "content").getD (Json.arr []) <;>
      simp [hres, hc, pyLen, runCatch]

/-- A `tools/list` reply listing one tool named `t`. -/
def oneToolResp : Json :=
  .obj [("result", .obj [("tools", .arr [.obj [("name", .str "t")]])])]

/-- A `tools/call` reply whose `content` is the non-empty string `"x"`,
not a list. -/
def strContentResp : Json := .obj [("result", .obj [("content", .str "x")])]

/-- Peer listing one tool and answering the call with string `content`. -/
def strContentB : Behavior :=
  ⟨none, fun i => if i = 0 then .ok oneToolResp else .ok strContentResp, ⟨some 0⟩⟩

/-- C5 counterexample: the probe records a pass although the reply's
`result` holds no `content` list at all — its `content` is the string
`"x"`, and Python's `len` accepts it. -/
theorem toolsCall_passes_on_nonlist_content :
    (toolsCallStep strContentB 0).1 =
      ⟨true, "Called \x27t\x27 successfully", some strContentResp⟩ ∧
    lookupKey [("content", Json.str "x")] "content" = some (Json.str "x") ∧
    (Json.str "x").isArr = false :=
  ⟨rfl, rfl, rfl⟩

/-- Peer listing one tool and answering the call with an empty `content`
list. -/
def emptyContentB : Behavior :=
  ⟨none,
   fun i => if i = 0 then .ok oneToolResp
     else .ok (.obj [("result", .obj [("content", .arr [])])]),
   ⟨some 0⟩⟩

/-- C5 witness: the amended theorem applied to `emptyContentB`; the call
request for tool `t` is sent and the probe fails on the empty `content`. -/
theorem toolsCall_sized_content_witness :
    (toolsCallStep emptyContentB 0).2.2 =
      [mkRequest 1 "tools/list" none,
       mkRequest 2 "tools/call" (some (toolsCallParams (Json.str "t")))] ∧
    (toolsCallStep emptyContentB 0).1.passed = false := by
  have h := toolsCall_pass_iff_sized_content emptyContentB 0
    [("result", Json.obj [("tools", Json.arr [Json.obj [("name", Json.str "t")]])])]
    [("tools", Json.arr [Json.obj [("name", Json.str "t")]])]
    [("name", Json.str "t")]
    [("result", Json.obj [("content", Json.arr [])])]
    [] (Json.str "t")
    rfl rfl rfl rfl rfl
    (by
      intro v hv
      rw [show lookupKey [("result", Json.obj [("content", Json.arr [])])] "result"
          = some (Json.obj [("content", Json.arr [])]) from rfl] at hv
      exact ⟨_, (Option.some.inj hv).symm⟩)
  refine ⟨h.1, ?_⟩
  rcases hp : (toolsCallStep emptyContentB 0).1.passed with _ | _
  · rfl
  · exfalso
    obtain ⟨m2r, l, hres, hlen, hl⟩ := h.2.2.mp hp
    rw [show lookupKey [("result", Json.obj [("content", Json.arr [])])] "result"
        = some (Json.obj [("content", Json.arr [])]) from rfl] at hres
    have hobjeq := Option.some.inj hres
    injection hobjeq with hlist
    subst hlist
    rw [show ((lookupKey [("content", Json.arr [])] "content").getD (Json.arr []))
        = Json.arr [] from rfl] at hlen
    simp [pyLen] at hlen
    omega

/-- C3: in every report the suite returns, a `server_stop` result is present
iff a passing `server_start` result is, and every `server_stop` result is
recorded as passing. -/
theorem server_stop_iff_server_start (b : Behavior) (rep : TestReport)
    (h : run_test_suite b = .ok rep) :
    ((∃ r ∈ rep.results, r.name = "server_stop") ↔
      (∃ r ∈ rep.results, r.name = "server_start" ∧ r.passed = true)) ∧
    (∀ r ∈ rep.results, r.name = "server_stop" → r.passed = true) := by
  unfold run_test_suite runSuiteAux at h
  cases hs : b.startExc with
  | some msg =>
    rw [hs] at h
    simp only [Except.ok.injEq] at h
    subst h
    simp
  | none =>
    rw [hs] at h
    cases hstop : (MCPTestClient.stop ⟨some b.stopProc⟩).1 with
    | error msg =>
      rw [hstop] at h
      simp at h
    | ok s2 =>
      rw [hstop] at h
      simp only [Except.ok.injEq] at h
      subst h
      simp [toResult]

/-- Peer answering every request with the empty object and exiting promptly
on stop. -/
def allObjB : Behavior := ⟨none, fun _ => .ok (Json.obj []), ⟨some 0⟩⟩

/-- The report `run_test_suite` produces for `allObjB`. -/
def allObjRep : TestReport :=
  ⟨[⟨"server_start", true, "Server started successfully", none⟩,
    ⟨"initialize", false, "Error: None", some (Json.obj [])⟩,
    ⟨"tools/list", false, "Error: None", some (Json.obj [])⟩,
    ⟨"tools/call", true, "No tools to test (skipped)", none⟩,
    ⟨"ping", false, "Error: None", some (Json.obj [])⟩,
    ⟨"unknown_method", false, "Should have returned error", some (Json.obj [])⟩,
    ⟨"server_stop", true, "Server stopped cleanly", none⟩]⟩

/-- C3 witness: the iff evaluated on the concrete report of `allObjB`. -/
theorem server_stop_witness :
    (∃ r ∈ allObjRep.results, r.name = "server_stop") ↔
      (∃ r ∈ allObjRep.results, r.name = "server_start" ∧ r.passed = true) :=
  (server_stop_iff_server_start allObjB allObjRep rfl).1

/-- Peer that stays alive: `stop()`'s bounded wait expires. -/
def hangStopB : Behavior := ⟨none, fun _ => .ok (Json.obj []), ⟨none⟩⟩

/-- C1 counterexample: against a peer that answers every probe but does not
exit within the stop timeout, `run_test_suite` raises `TimeoutExpired`
(the final `client.stop()` is outside every `try`) instead of returning a
report. -/
theorem runSuite_raises_on_stop_timeout :
    run_test_suite hangStopB = .error "TimeoutExpired" := rfl

/-- C1 (amended): whenever the child process exits within the stop timeout,
`run_test_suite` returns a report; and a transport/parsing failure raised
inside any of the five request probes — including the `tools/call` probe's
second request — is caught at that probe's boundary and becomes a failing
outcome carrying the failure's message.  Only a failure in the final
`stop()` (the process still running after the bounded wait) propagates out
of `run_test_suite`. -/
theorem probe_failures_caught_suite_totality :
    (∀ b : Behavior, ∀ t, b.stopProc.exitTime = some t → t ≤ stopTimeout →
      ∃ rep, run_test_suite b = .ok rep) ∧
    (∀ b : Behavior, ∀ n msg, b.respond n = .error msg →
      initOut b n = ⟨false, msg, none⟩ ∧
      toolsListOut b n = ⟨false, msg, none⟩ ∧
      (toolsCallStep b n).1 = ⟨false, msg, none⟩ ∧
      pingOut b n = ⟨false, msg, none⟩ ∧
      unknownOut b n = ⟨false, msg, none⟩) ∧
    (∀ b : Behavior, ∀ n msg m mr t0m rest nm,
      b.respond n = .ok (Json.obj m) →
      lookupKey m "result" = some (Json.obj mr) →
      lookupKey mr "tools" = some (Json.arr (Json.obj t0m :: rest)) →
      lookupKey t0m "name" = some nm →
      b.respond (n + 1) = .error msg →
      (toolsCallStep b n).1 = ⟨false, msg, none⟩) := by
  refine ⟨?_, ?_, ?_⟩
  · intro b t ht hle
    unfold run_test_suite runSuiteAux
    cases hs : b.startExc with
    | some msg => exact ⟨_, rfl⟩
    | none =>
      have hstop : (MCPTestClient.stop ⟨some b.stopProc⟩).1 = .ok ⟨none⟩ := by
        simp [MCPTestClient.stop, ht, hle]
      rw [hstop]
      exact ⟨_, rfl⟩
  · intro b n msg h
    refine ⟨?_, ?_, ?_, ?_, ?_⟩
    · unfold initOut; rw [h]; rfl
    · unfold toolsListOut; rw [h]; rfl
    · unfold toolsCallStep; rw [h]; rfl
    · unfold pingOut; rw [h]; rfl
    · unfold unknownOut; rw [h]; rfl
  · intro b n msg m mr t0m rest nm h1 hr ht hnm h2
    unfold toolsCallStep
    rw [h1]
    simp only [exceptBind_ok, pyGet_obj]
    rw [hr]
    simp only [Option.getD_some, pyGet_obj]
    rw [ht]
    simp only [Option.getD_some, pyTruthy, List.isEmpty_cons, Bool.not_false, if_true]
    simp only [pyIndex, List.get?_cons_zero, exceptBind_ok]
    rw [pyGetItem_obj_some t0m "name" nm hnm]
    rw [h2]
    rfl

/-- Peer whose transport yields no reply line to any request. -/
def noReplyB : Behavior :=
  ⟨none, fun _ => .error "No response from server", ⟨some 0⟩⟩

/-- C1 witness: the amended theorem applied to `allObjB` (the suite returns
a report) and to `noReplyB` (the `initialize` failure is converted). -/
theorem probe_failures_caught_witness :
    (∃ rep, run_test_suite allObjB = .ok rep) ∧
    initOut noReplyB 0 = ⟨false, "No response from server", none⟩ :=
  ⟨probe_failures_caught_suite_totality.1 allObjB 0 rfl (by decide),
   (probe_failures_caught_suite_totality.2.1 noReplyB 0 "No response from server" rfl).1⟩
